import Mathlib

set_option maxRecDepth 20000

/-!
Shallow embedding of `src/main.py` of the venkateshpura-chatbot backend, and
theorems checking the natural-language specification against it.

The embedding models:
- `get_species_contribution` (the static species table with generic fallback),
- Python `round(x, 2)` on exact rationals (half-to-even),
- the `/api/identify` handler after the upstream HTTP call returned,
- reply extraction from a heterogeneous OpenAI response object,
- the error-classification branch of `/chat`,
- the `/chat` handler as a pure function of the request, the configuration
  and the outcome of the external call, returning the HTTP outcome together
  with the list of API calls made and the list of chat-log records appended.

Exceptions in the Python source are modelled by `Option`/`Except`; machine
side effects (logging, printing) are returned as data.
-/

namespace Venkateshpura

/-- Association-list lookup with string keys, modelling Python `dict.get`
for a dict literal with distinct keys (first match wins). -/
def lookupAssoc : List (String × String) → String → Option String
  | [], _ => none
  | (k, v) :: rest, s => if s = k then some v else lookupAssoc rest s

/-- The static `species_contributions` dict literal from `get_species_contribution`. -/
def species_contributions : List (String × String) :=
  [ ("Nymphaea alba", "The White Water Lily is a vital **producer** that provides shade, cover for fish spawning, and stabilizes bottom sediment, which helps reduce lake cloudiness (turbidity)."),
    ("Typha latifolia", "Broadleaf Cattail is important for **shoreline stability** and provides nesting habitat, but its dense growth can lead to marsh encroachment."),
    ("Potamogeton crispus", "Curled Pondweed provides good cover for juvenile fish and invertebrates, but can become invasive in nutrient-rich water.") ]

/-- The `generic_plant_text` fallback string. -/
def generic_plant_text : String :=
  "This type of aquatic vegetation is a **primary producer**, playing a key role in oxygenating the water and providing crucial food and shelter for insects and young fish."

/-- `get_species_contribution(scientific_name)`: dict lookup with generic fallback. -/
def get_species_contribution (scientific_name : String) : String :=
  (lookupAssoc species_contributions scientific_name).getD generic_plant_text

/-- Python `round(x, 2)` (round half to even, two decimal places), modelled on
exact rationals.  The Python source applies it to a float; the decimal values
appearing in the claims are exact in this model. -/
def pyRound2 (x : ℚ) : ℚ :=
  let scaled := x * 100
  let fl := ⌊scaled⌋
  let frac := scaled - fl
  let n : ℤ :=
    if frac < 1/2 then fl
    else if 1/2 < frac then fl + 1
    else if fl % 2 = 0 then fl else fl + 1
  (n : ℚ) / 100

/-- The `species` object inside a Pl@ntNet match. -/
structure Species where
  scientificName : String
  commonNames : List String
deriving DecidableEq

/-- One entry of the `results` array of a Pl@ntNet response. -/
structure PlantNetMatch where
  species : Species
  score : ℚ
deriving DecidableEq

/-- The upstream HTTP response observed by `/api/identify`: status code,
body text, and the parsed `results` array (used only on success). -/
structure PlantNetResponse where
  status : Nat
  text : String
  results : List PlantNetMatch
deriving DecidableEq

/-- Outcome of `/api/identify`: the success JSON, the low-confidence
message, or an `HTTPException` with status and detail. -/
inductive IdentifyOutcome where
  | ok (scientificName commonName : String) (confidence : ℚ) (contribution : String)
  | lowConfidence (message : String)
  | httpError (status : Nat) (detail : String)
deriving DecidableEq

/-- The `/api/identify` handler after the upstream call returned a response.
`requests`' `raise_for_status` raises `HTTPError` exactly for status codes in
[400, 600), which the handler turns into an `HTTPException` with the same
status and a prefixed detail; other statuses fall through to body processing. -/
def identify_plant (plantnetKeyConfigured : Bool) (resp : PlantNetResponse) : IdentifyOutcome :=
  if !plantnetKeyConfigured then
    .httpError 500 "Pl@ntNet API Key not configured on server."
  else if 400 ≤ resp.status ∧ resp.status < 600 then
    .httpError resp.status ("Pl@ntNet API Error: " ++ resp.text)
  else
    match resp.results with
    | [] => .lowConfidence "Could not identify species with high confidence. Please try another photo."
    | top_match :: _ =>
      let scientific_name := top_match.species.scientificName
      let common_name :=
        match top_match.species.commonNames with
        | [] => scientific_name
        | c :: _ => c
      .ok scientific_name common_name (pyRound2 (top_match.score * 100))
        (get_species_contribution scientific_name)

/-- Python whitespace as recognized by `str.strip()`: space, tab, newline,
carriage return, vertical tab, form feed. -/
def isPySpace (c : Char) : Bool :=
  c = ' ' ∨ c = Char.ofNat 9 ∨ c = Char.ofNat 10 ∨ c = Char.ofNat 13 ∨
    c = Char.ofNat 11 ∨ c = Char.ofNat 12

/-- Python `str.strip()`: remove leading and trailing whitespace. -/
def pyStrip (s : String) : String :=
  ⟨((s.data.dropWhile isPySpace).reverse.dropWhile isPySpace).reverse⟩

/-- A chat-completion response object as observed by the extraction code:
`mappingContent` is `some c` when `resp.choices[0].message["content"]` succeeds
and yields the string `c` (so that `.strip()` succeeds on it), `attrContent`
likewise for `resp.choices[0].message.content`, and `repr` is `str(resp)`.
A failing access (missing choice, missing key, `None` content, ...) is `none`. -/
structure OpenAIResponse where
  mappingContent : Option String
  attrContent : Option String
  repr : String
deriving DecidableEq

/-- The reply-extraction chain of `/chat`: mapping-style access stripped,
else attribute-style access stripped, else `str(resp)`.  Each `except`
is modelled by falling through on `none`. -/
def extractReply (resp : OpenAIResponse) : String :=
  match resp.mappingContent with
  | some c => pyStrip c
  | none =>
    match resp.attrContent with
    | some c => pyStrip c
    | none => resp.repr

/-- An exception caught by the `/chat` error handler: `code` is `some v` when
`hasattr(e, "code")` holds and `e.code` is the string `v` (else `none`),
`isRateLimitInstance` records `isinstance(e, openai.error.RateLimitError)`
when that type exists, and `repr` is `str(e)`. -/
structure CaughtError where
  code : Option String
  isRateLimitInstance : Bool
  repr : String
deriving DecidableEq

/-- The shape of the `openai` package relevant to the error handler: whether
the module exposes an `error` attribute, and whether that namespace has a
`RateLimitError` attribute. -/
structure OpenAIPkg where
  hasErrorNamespace : Bool
  hasRateLimitAttr : Bool
deriving DecidableEq

/-- The rule-2 type test of `/chat`:
`isinstance(e, getattr(openai_pkg.error, "RateLimitError", Exception))`,
guarded by `try/except: pass`.  Accessing `openai_pkg.error` raises when the
namespace is absent (the `except` skips the test); when the namespace exists
but lacks `RateLimitError`, `getattr` falls back to `Exception`, of which
every caught error is an instance. -/
def rateLimitTypeTest (pkg : OpenAIPkg) (e : CaughtError) : Bool :=
  if pkg.hasErrorNamespace then
    if pkg.hasRateLimitAttr then e.isRateLimitInstance else true
  else
    false

/-- The rule-1 code-field test of `/chat`:
`hasattr(e, "code") and e.code in ("insufficient_quota", "rate_limit_exceeded")`. -/
def quotaCodeTest (e : CaughtError) : Bool :=
  e.code = some "insufficient_quota" ∨ e.code = some "rate_limit_exceeded"

/-- A record appended to the chat log by `log_chat`, before serialization. -/
structure ChatLogEntry where
  ts : ℚ
  message : String
  reply : String
deriving DecidableEq

/-- The `entry` dict built by `log_chat`. -/
def log_chat_entry (now : ℚ) (user_message reply_text : String) : ChatLogEntry :=
  ⟨now, user_message, reply_text⟩

/-- A JSON value, as serialized by `json.dumps` (object fields in insertion order). -/
inductive Json where
  | str (s : String)
  | num (q : ℚ)
  | obj (fields : List (String × Json))

/-- The JSON object written for a chat-log entry: `json.dumps(entry)` with the
dict's insertion order `ts`, `message`, `reply`. -/
def ChatLogEntry.toJson (e : ChatLogEntry) : Json :=
  .obj [("ts", .num e.ts), ("message", .str e.message), ("reply", .str e.reply)]

/-- The field names of a JSON object (empty for non-objects). -/
def Json.objKeys : Json → List String
  | .obj fields => fields.map Prod.fst
  | _ => []

/-- HTTP outcome of `/chat`: 200 with a reply, or an `HTTPException`. -/
inductive ChatOutcome where
  | ok (reply : String)
  | httpError (status : Nat) (detail : String)
deriving DecidableEq

/-- Everything observable about one `/chat` invocation: the HTTP outcome, the
user messages sent to the OpenAI API (in order), and the chat-log records
appended (in order). -/
structure ChatResult where
  outcome : ChatOutcome
  apiCalls : List String
  logs : List ChatLogEntry
deriving DecidableEq

/-- The fixed mock reply. -/
def mock_reply : String := "This is a temporary mock reply (MOCK_MODE)."

/-- Friendly message for the rule-1 (code field) quota case. -/
def friendlyQuota : String := "Service temporarily unavailable due to quota/limits. Try again later."

/-- Friendly message for the rule-2 (rate-limit type) case. -/
def friendlyRateLimit : String := "OpenAI rate-limit reached. Try again shortly."

/-- The `/chat` handler as a pure function.  `apiResult` is the outcome of
`client.chat.completions.create` (the response object, or the caught
exception); it is consulted only when the call is actually made.  `now` is
the `time.time()` value used by `log_chat`. -/
def chat (mockMode : Bool) (pkg : OpenAIPkg) (now : ℚ)
    (apiResult : Except CaughtError OpenAIResponse) (message : String) : ChatResult :=
  let user_message := pyStrip message
  if user_message = "" then
    ⟨.httpError 400 "Empty message", [], []⟩
  else if mockMode then
    ⟨.ok mock_reply, [], [log_chat_entry now user_message mock_reply]⟩
  else
    match apiResult with
    | .ok resp =>
      let reply := extractReply resp
      ⟨.ok reply, [user_message], [log_chat_entry now user_message reply]⟩
    | .error e =>
      if quotaCodeTest e then
        ⟨.ok friendlyQuota, [user_message], [log_chat_entry now user_message friendlyQuota]⟩
      else if rateLimitTypeTest pkg e then
        ⟨.ok friendlyRateLimit, [user_message], [log_chat_entry now user_message friendlyRateLimit]⟩
      else
        ⟨.httpError 500 ("Server error during OpenAI call: " ++ e.repr), [user_message], []⟩

end Venkateshpura

namespace Venkateshpura

/-- C1: reply extraction in `/chat` is a total function computed by an ordered
fallback chain in which the first success wins: mapping-style content trimmed,
else attribute-style content trimmed, else the string representation of the
whole response object. -/
theorem extractReply_fallback_chain (resp : OpenAIResponse) :
    (∀ c, resp.mappingContent = some c → extractReply resp = pyStrip c) ∧
    (resp.mappingContent = none →
      ∀ c, resp.attrContent = some c → extractReply resp = pyStrip c) ∧
    (resp.mappingContent = none → resp.attrContent = none →
      extractReply resp = resp.repr) := by
  refine ⟨?_, ?_, ?_⟩ <;> intros <;> simp_all [extractReply]

/-- C1 witness: the chain at a concrete response whose mapping access fails
and whose attribute access succeeds. -/
theorem extractReply_fallback_chain_witness :
    extractReply ⟨none, some "  hi  ", "REPR"⟩ = "hi" := by
  have h := (extractReply_fallback_chain ⟨none, some "  hi  ", "REPR"⟩).2.1 rfl "  hi  " rfl
  rw [h]; decide

/-- C2 counterexample: an error with no `code` field that is not a rate-limit
instance (library error namespace and `RateLimitError` both present) yields an
HTTP 500 whose detail is the prefixed string, not the bare string
representation `"boom"` of the error. -/
theorem chat_server_error_counterexample :
    (chat false ⟨true, true⟩ 0 (.error ⟨none, false, "boom"⟩) "hello").outcome
      = .httpError 500 "Server error during OpenAI call: boom" ∧
    (chat false ⟨true, true⟩ 0 (.error ⟨none, false, "boom"⟩) "hello").outcome
      ≠ .httpError 500 "boom" := by
  constructor <;> decide

/-- C2 (amended): every caught failure that passes neither the code-field test
nor the rule-2 type test aborts with HTTP 500 whose detail is the fixed prefix
"Server error during OpenAI call: " followed by the error's string
representation. -/
theorem chat_server_error (pkg : OpenAIPkg) (now : ℚ) (e : CaughtError) (message : String)
    (hmsg : pyStrip message ≠ "")
    (hcode : quotaCodeTest e = false)
    (htype : rateLimitTypeTest pkg e = false) :
    chat false pkg now (.error e) message
      = ⟨.httpError 500 ("Server error during OpenAI call: " ++ e.repr),
         [pyStrip message], []⟩ := by
  simp [chat, hmsg, hcode, htype]

/-- C2 witness: the server-error branch at a concrete error. -/
theorem chat_server_error_witness :
    chat false ⟨true, true⟩ 0 (.error ⟨some "other", false, "kaput"⟩) " hi "
      = ⟨.httpError 500 "Server error during OpenAI call: kaput", ["hi"], []⟩ := by
  have h := chat_server_error ⟨true, true⟩ 0 ⟨some "other", false, "kaput"⟩ " hi "
    (by decide) (by decide) (by decide)
  rw [h]; decide

/-- C3: a failure whose `code` field is `insufficient_quota` or
`rate_limit_exceeded`, or which is an instance of the library's
`RateLimitError` type, yields HTTP 200 with the corresponding fixed friendly
string (never HTTP 500), and that friendly string is logged as the reply. -/
theorem chat_quota_or_rate_limit (pkg : OpenAIPkg) (now : ℚ) (e : CaughtError)
    (message : String) (hmsg : pyStrip message ≠ "") :
    (quotaCodeTest e = true →
      chat false pkg now (.error e) message
        = ⟨.ok friendlyQuota, [pyStrip message],
           [log_chat_entry now (pyStrip message) friendlyQuota]⟩) ∧
    (quotaCodeTest e = false → pkg.hasErrorNamespace = true →
      pkg.hasRateLimitAttr = true → e.isRateLimitInstance = true →
      chat false pkg now (.error e) message
        = ⟨.ok friendlyRateLimit, [pyStrip message],
           [log_chat_entry now (pyStrip message) friendlyRateLimit]⟩) := by
  constructor
  · intro hc
    simp [chat, hmsg, hc]
  · intro hc hns hattr hinst
    simp [chat, hmsg, hc, rateLimitTypeTest, hns, hattr, hinst]

/-- C3 witness: the code-field quota case at a concrete error. -/
theorem chat_quota_or_rate_limit_witness :
    chat false ⟨false, false⟩ 1 (.error ⟨some "insufficient_quota", false, "q"⟩) "hello"
      = ⟨.ok friendlyQuota, ["hello"], [log_chat_entry 1 "hello" friendlyQuota]⟩ := by
  have h := (chat_quota_or_rate_limit ⟨false, false⟩ 1 ⟨some "insufficient_quota", false, "q"⟩
    "hello" (by decide)).1 (by decide)
  rw [h]; decide

/-- C4: the species lookup is pure and total; a scientific name that exactly
equals a key of the static table yields that key's description, any other
string yields the fixed generic producer text; in particular "Nymphaea alba"
yields the White Water Lily text and "Unknown species" the generic text. -/
theorem get_species_contribution_spec (s : String) :
    (∀ d, (s, d) ∈ species_contributions → get_species_contribution s = d) ∧
    ((∀ d, (s, d) ∉ species_contributions) →
      get_species_contribution s = generic_plant_text) ∧
    get_species_contribution "Nymphaea alba"
      = "The White Water Lily is a vital **producer** that provides shade, cover for fish spawning, and stabilizes bottom sediment, which helps reduce lake cloudiness (turbidity)." ∧
    get_species_contribution "Unknown species" = generic_plant_text := by
  refine ⟨?_, ?_, by decide, by decide⟩
  · intro d hd
    simp [species_contributions] at hd
    rcases hd with ⟨hs, hd⟩ | ⟨hs, hd⟩ | ⟨hs, hd⟩ <;> subst hs <;> subst hd <;> decide
  · intro h
    have h1 : s ≠ "Nymphaea alba" := fun hs => h
      "The White Water Lily is a vital **producer** that provides shade, cover for fish spawning, and stabilizes bottom sediment, which helps reduce lake cloudiness (turbidity)."
      (by subst hs; simp [species_contributions])
    have h2 : s ≠ "Typha latifolia" := fun hs => h
      "Broadleaf Cattail is important for **shoreline stability** and provides nesting habitat, but its dense growth can lead to marsh encroachment."
      (by subst hs; simp [species_contributions])
    have h3 : s ≠ "Potamogeton crispus" := fun hs => h
      "Curled Pondweed provides good cover for juvenile fish and invertebrates, but can become invasive in nutrient-rich water."
      (by subst hs; simp [species_contributions])
    simp [get_species_contribution, lookupAssoc, species_contributions, h1, h2, h3]

/-- C4 witness: the exact-match case at the key "Typha latifolia". -/
theorem get_species_contribution_spec_witness :
    get_species_contribution "Typha latifolia"
      = "Broadleaf Cattail is important for **shoreline stability** and provides nesting habitat, but its dense growth can lead to marsh encroachment." :=
  (get_species_contribution_spec "Typha latifolia").1 _ (by decide)

/-- C5: a message that is empty after trimming makes `/chat` fail with HTTP
400 and detail "Empty message", with no external API call made and nothing
logged, in every configuration. -/
theorem chat_empty_message (mockMode : Bool) (pkg : OpenAIPkg) (now : ℚ)
    (apiResult : Except CaughtError OpenAIResponse) (message : String)
    (hmsg : pyStrip message = "") :
    chat mockMode pkg now apiResult message
      = ⟨.httpError 400 "Empty message", [], []⟩ := by
  simp [chat, hmsg]

/-- C5 witness: the empty-message rejection at a whitespace-only message. -/
theorem chat_empty_message_witness :
    chat false ⟨true, true⟩ 0 (.ok ⟨none, none, "r"⟩) "   "
      = ⟨.httpError 400 "Empty message", [], []⟩ :=
  chat_empty_message false ⟨true, true⟩ 0 (.ok ⟨none, none, "r"⟩) "   " (by decide)

/-- C6: on a successful identification response with a non-empty results
array, the returned confidence is the top match's score times 100 rounded to
2 decimal places (Python half-to-even rounding); a score of 0.8734 yields
87.34. -/
theorem identify_confidence (resp : PlantNetResponse) (top : PlantNetMatch)
    (rest : List PlantNetMatch) (hst : resp.status < 400)
    (hres : resp.results = top :: rest) :
    identify_plant true resp
      = .ok top.species.scientificName
          (match top.species.commonNames with
            | [] => top.species.scientificName
            | c :: _ => c)
          (pyRound2 (top.score * 100))
          (get_species_contribution top.species.scientificName) ∧
    pyRound2 ((8734 / 10000 : ℚ) * 100) = 8734 / 100 := by
  constructor
  · have hno : ¬(400 ≤ resp.status ∧ resp.status < 600) := by omega
    simp [identify_plant, hno, hres]
  · have h1 : ((8734 / 10000 : ℚ) * 100) * 100 = ((8734 : ℤ) : ℚ) := by norm_num
    simp only [pyRound2]
    rw [h1, Int.floor_intCast]
    norm_num

/-- C6 witness: a full identification response with score 0.8734 yields
confidence 87.34. -/
theorem identify_confidence_witness :
    identify_plant true
        ⟨200, "", [⟨⟨"Nymphaea alba", ["White Water Lily"]⟩, 8734 / 10000⟩]⟩
      = .ok "Nymphaea alba" "White Water Lily" (8734 / 100)
          (get_species_contribution "Nymphaea alba") := by
  have h := identify_confidence
    ⟨200, "", [⟨⟨"Nymphaea alba", ["White Water Lily"]⟩, 8734 / 10000⟩]⟩
    ⟨⟨"Nymphaea alba", ["White Water Lily"]⟩, 8734 / 10000⟩ [] (by decide) rfl
  rw [h.1]
  show IdentifyOutcome.ok "Nymphaea alba" "White Water Lily"
      (pyRound2 ((8734 / 10000 : ℚ) * 100)) (get_species_contribution "Nymphaea alba")
    = _
  rw [h.2]

end Venkateshpura

namespace Venkateshpura

/-- C7 counterexample: a 404 upstream response with body "Not Found" makes
`/api/identify` fail with detail "Pl@ntNet API Error: Not Found", not with the
bare upstream body "Not Found" as the detail. -/
theorem identify_upstream_counterexample :
    identify_plant true ⟨404, "Not Found", []⟩
      = .httpError 404 "Pl@ntNet API Error: Not Found" ∧
    identify_plant true ⟨404, "Not Found", []⟩ ≠ .httpError 404 "Not Found" := by
  constructor <;> decide

/-- C7 (amended): for every 4xx or 5xx upstream response (the statuses
`raise_for_status` treats as errors; 1xx/3xx responses instead fall through to
body processing), `/api/identify` fails with exactly the upstream status code,
with detail the fixed prefix "Pl@ntNet API Error: " followed by the upstream
response body. -/
theorem identify_upstream_error (resp : PlantNetResponse)
    (h4 : 400 ≤ resp.status) (h6 : resp.status < 600) :
    identify_plant true resp
      = .httpError resp.status ("Pl@ntNet API Error: " ++ resp.text) := by
  simp [identify_plant, h4, h6]

/-- C7 witness: the upstream-error propagation at a concrete 503 response. -/
theorem identify_upstream_error_witness :
    identify_plant true ⟨503, "busy", []⟩ = .httpError 503 "Pl@ntNet API Error: busy" := by
  exact identify_upstream_error ⟨503, "busy", []⟩ (by decide) (by decide)

/-- C8 counterexample: a successful `/chat` exchange appends a record whose
serialized field names are `ts`, `message`, `reply` — not `timestamp`,
`message`, `reply` as the claim states. -/
theorem chat_log_fields_counterexample :
    (chat false ⟨true, true⟩ 0 (.ok ⟨some "ok!", none, "r"⟩) "hello").logs
      = [log_chat_entry 0 "hello" "ok!"] ∧
    (log_chat_entry 0 "hello" "ok!").toJson.objKeys = ["ts", "message", "reply"] ∧
    (log_chat_entry 0 "hello" "ok!").toJson.objKeys ≠ ["timestamp", "message", "reply"] := by
  refine ⟨by decide, rfl, by decide⟩

/-- C8 (amended): every record appended to the chat log by a `/chat`
invocation serializes as a single JSON object with exactly the three fields
`ts` (a number), `message` (a string) and `reply` (a string), in that order. -/
theorem chat_log_shape (mockMode : Bool) (pkg : OpenAIPkg) (now : ℚ)
    (apiResult : Except CaughtError OpenAIResponse) (message : String) :
    ∀ e ∈ (chat mockMode pkg now apiResult message).logs,
      e.toJson = .obj [("ts", .num e.ts), ("message", .str e.message), ("reply", .str e.reply)] ∧
      e.toJson.objKeys = ["ts", "message", "reply"] := by
  intro e _
  exact ⟨rfl, rfl⟩

/-- C8 witness: the log-record shape at the record appended by a concrete
mock-mode exchange. -/
theorem chat_log_shape_witness :
    (log_chat_entry 0 "hi" mock_reply).toJson.objKeys = ["ts", "message", "reply"] :=
  (chat_log_shape true ⟨true, true⟩ 0 (.ok ⟨none, none, "r"⟩) "hi"
    (log_chat_entry 0 "hi" mock_reply) (by decide)).2

/-- C9: when the client library exposes an error namespace without a
`RateLimitError` attribute, the rule-2 type test falls back to `Exception`
and succeeds for every caught failure, so every failure that does not match
rule 1 is returned as HTTP 200 with the friendly rate-limit string (the
HTTP 500 branch is unreachable). -/
theorem chat_missing_ratelimit_attr (pkg : OpenAIPkg) (now : ℚ) (e : CaughtError)
    (message : String) (hmsg : pyStrip message ≠ "")
    (hns : pkg.hasErrorNamespace = true) (hattr : pkg.hasRateLimitAttr = false)
    (hcode : quotaCodeTest e = false) :
    rateLimitTypeTest pkg e = true ∧
    chat false pkg now (.error e) message
      = ⟨.ok friendlyRateLimit, [pyStrip message],
         [log_chat_entry now (pyStrip message) friendlyRateLimit]⟩ := by
  have ht : rateLimitTypeTest pkg e = true := by
    simp [rateLimitTypeTest, hns, hattr]
  exact ⟨ht, by simp [chat, hmsg, hcode, ht]⟩

/-- C9 witness: the fallback at a concrete plain error (not a rate-limit
instance, no code field) under a namespace lacking `RateLimitError`. -/
theorem chat_missing_ratelimit_attr_witness :
    chat false ⟨true, false⟩ 3 (.error ⟨none, false, "boom"⟩) "hey"
      = ⟨.ok friendlyRateLimit, ["hey"], [log_chat_entry 3 "hey" friendlyRateLimit]⟩ := by
  have h := (chat_missing_ratelimit_attr ⟨true, false⟩ 3 ⟨none, false, "boom"⟩ "hey"
    (by decide) rfl rfl (by decide)).2
  rw [h]; decide

/-- C10: after validation `/chat` uses the whitespace-trimmed message
everywhere downstream: every user message sent to the external API and the
`message` field of every appended log record equal the trimmed input, in mock
mode, on success and on every error branch alike. -/
theorem chat_uses_trimmed_message (mockMode : Bool) (pkg : OpenAIPkg) (now : ℚ)
    (apiResult : Except CaughtError OpenAIResponse) (message : String)
    (hmsg : pyStrip message ≠ "") :
    (∀ m ∈ (chat mockMode pkg now apiResult message).apiCalls, m = pyStrip message) ∧
    (∀ e ∈ (chat mockMode pkg now apiResult message).logs,
      e.message = pyStrip message) := by
  cases apiResult <;>
    (constructor <;> intro x hx <;> simp only [chat] at hx <;> rw [if_neg hmsg] at hx <;>
      split_ifs at hx <;> simp_all [log_chat_entry])

/-- C10 witness: the trimmed message "hi" is what a concrete successful
exchange sends to the API and logs. -/
theorem chat_uses_trimmed_message_witness :
    ("hi" : String) = pyStrip "  hi  " ∧
    (log_chat_entry 2 "hi" "ok").message = pyStrip "  hi  " := by
  have h := chat_uses_trimmed_message false ⟨true, true⟩ 2
    (.ok ⟨some " ok ", none, "r"⟩) "  hi  " (by decide)
  exact ⟨h.1 "hi" (by decide), h.2 (log_chat_entry 2 "hi" "ok") (by decide)⟩

end Venkateshpura
